import Mathlib

/-!
Verification of the Vigil server core against its specification.

This file gives a shallow embedding, in Lean, of the parts of the Vigil
codebase (a TypeScript personal-assistant server) that the verified
properties talk about, and proves or refutes each property.

Conventions of the embedding:
* database tables are modelled as Lean lists of row structures, in insertion
  order (which matches the id order of the BIGSERIAL primary keys);
* SQL UPDATE statements become `List.map` over rows with a guard on the
  WHERE clause; `RETURNING * ... executeTakeFirst` becomes an `Option` row;
* asynchronous TypeScript functions whose promise can reject are modelled
  as functions into `Except String α`; outcomes of remote calls (LM stream,
  embeddings, directions API, database driver) are supplied as explicit
  parameters so that every code path is a total, executable Lean function;
* JavaScript string truthiness (empty string is falsy) is modelled
  explicitly where the source relies on it.
-/

namespace Vigil

/-- JavaScript truthiness of an optional string: undefined, null and the
empty string are falsy.  Several source sites branch on it. -/
def jsTruthy : Option String → Bool
  | none => false
  | some s => !s.isEmpty

/-! ## Job runs (repositories/job-runs.ts, embedded from src/unnamed/part_023) -/

namespace JobRuns

/-- Status of a job run row; the check constraint of the job_runs table. -/
inductive RunStatus
  | pending
  | running
  | completed
  | failed
deriving DecidableEq, Repr

/-- One row of the job_runs table.  Instants are abstract: `scheduled_for`
is a normalized timestamptz value (two equal strings denote the same
instant), `locked_until`, `started_at` and `completed_at` are epoch
numbers. -/
structure JobRun where
  id : Nat
  job_id : String
  scheduled_for : String
  locked_until : Option Nat := none
  status : RunStatus := RunStatus.pending
  retry_count : Nat := 0
  thread_id : Option String := none
  error : Option String := none
  started_at : Option Nat := none
  completed_at : Option Nat := none
deriving DecidableEq, Repr

/-- The job_runs table: rows in id order, plus the next id the store
would issue. -/
structure RunTable where
  rows : List JobRun
  nextId : Nat
deriving DecidableEq, Repr

/-- Does some run of this job currently have status running?  This is the
NOT EXISTS subquery of createIdempotent. -/
def hasRunning (tbl : RunTable) (jobId : String) : Bool :=
  tbl.rows.any (fun r => r.job_id = jobId ∧ r.status = RunStatus.running)

/-- Does a row with this (job_id, scheduled_for) already exist?  This is
the unique constraint consulted by ON CONFLICT DO NOTHING. -/
def hasPair (tbl : RunTable) (jobId scheduledFor : String) : Bool :=
  tbl.rows.any (fun r => r.job_id = jobId ∧ r.scheduled_for = scheduledFor)

/-- The fresh pending row that createIdempotent would insert: the INSERT
column list is (job_id, scheduled_for); every other column takes its
table default. -/
def freshRun (tbl : RunTable) (jobId scheduledFor : String) : JobRun :=
  { id := tbl.nextId, job_id := jobId, scheduled_for := scheduledFor }

/-- The table after appending the fresh pending row. -/
def insertFresh (tbl : RunTable) (jobId scheduledFor : String) : RunTable :=
  { rows := tbl.rows ++ [freshRun tbl jobId scheduledFor],
    nextId := tbl.nextId + 1 }

/-- JobRunRepository.createIdempotent: INSERT a (job_id, scheduled_for) row
with default status pending, suppressed either by the NOT EXISTS guard on a
running row of the same job or by ON CONFLICT (job_id, scheduled_for)
DO NOTHING; returns the table and whether a row was inserted
(numAffectedRows > 0). -/
def createIdempotent (tbl : RunTable) (jobId scheduledFor : String) :
    RunTable × Bool :=
  if hasRunning tbl jobId then
    (tbl, false)
  else if hasPair tbl jobId scheduledFor then
    (tbl, false)
  else
    (insertFresh tbl jobId scheduledFor, true)

/-- The SET list of JobRunRepository.complete applied to one row:
status completed, completed_at = NOW(), thread_id, locked_until = NULL. -/
def completedRow (r : JobRun) (threadId : Option String) (now : Nat) : JobRun :=
  { r with status := RunStatus.completed, completed_at := some now,
           thread_id := threadId, locked_until := none }

/-- The SET list of JobRunRepository.fail applied to one row: status failed,
retry_count = retry_count + 1, error, locked_until = NULL.  Note the source
SET list does not touch completed_at. -/
def failedRow (r : JobRun) (err : String) : JobRun :=
  { r with status := RunStatus.failed, retry_count := r.retry_count + 1,
           error := some err, locked_until := none }

/-- JobRunRepository.complete: UPDATE the row WHERE id = ?. -/
def complete (tbl : RunTable) (id : Nat) (threadId : Option String)
    (now : Nat) : RunTable :=
  { tbl with rows := tbl.rows.map (fun r =>
      if r.id = id then completedRow r threadId now else r) }

/-- JobRunRepository.fail: UPDATE the row WHERE id = ?. -/
def fail (tbl : RunTable) (id : Nat) (err : String) : RunTable :=
  { tbl with rows := tbl.rows.map (fun r =>
      if r.id = id then failedRow r err else r) }

/-- Number of rows carrying a given (job_id, scheduled_for) pair. -/
def pairCount (tbl : RunTable) (jobId scheduledFor : String) : Nat :=
  tbl.rows.countP (fun r =>
    decide (r.job_id = jobId ∧ r.scheduled_for = scheduledFor))

end JobRuns

end Vigil

namespace Vigil.JobRuns

/-- Concrete instance discharging the hypotheses of claim_C3: an empty run
table, one job, one nominal fire time. -/
def tableC3 : RunTable := { rows := [], nextId := 1 }

/-- A running row claimed by the scheduler, about to be failed: its
completed_at is NULL while it runs. -/
def tableC5 : RunTable :=
  { rows := [{ id := 1, job_id := "7", scheduled_for := "2026-03-01T08:00:00Z",
               locked_until := some 300, status := RunStatus.running,
               retry_count := 0, thread_id := none, error := none,
               started_at := some 0, completed_at := none }],
    nextId := 2 }

end Vigil.JobRuns

namespace Vigil.Agent

/-! ## Agent Service (services/agent.ts, tool-aware revision embedded in
src/src/services/memory.test.ts) -/

/-- Row role of a message; the check constraint of the messages table. -/
inductive Role
  | system
  | user
  | assistant
  | tool
deriving DecidableEq, Repr

/-- Token usage extracted from the LM run state. -/
structure TokenUsage where
  input_tokens : Nat
  output_tokens : Nat
  total_tokens : Nat
deriving DecidableEq, Repr

/-- The structured JSONB content of a message: a role mirror, the text, and
for assistant messages an optional usage record (the source spreads the
usage field only when usage is non-null). -/
structure MsgContent where
  role : Role
  content : String
  usage : Option TokenUsage := none
deriving DecidableEq, Repr

/-- One row of the messages table, in insertion (id) order within its
thread. -/
structure Message where
  thread_id : String
  role : Role
  model : Option String := none
  content : MsgContent
deriving DecidableEq, Repr

/-- Outcome of the LM streaming run, as observed by the stream generator of
runStream: either the event stream completes (with the text deltas it
yielded and the usage from result.state, which may be absent), or it raises
after yielding some deltas (a tool threw or the LM errored mid-way), or the
run call itself rejects before any event (transport error). -/
inductive LMOutcome
  | success (deltas : List String) (usage : Option TokenUsage)
  | midStreamError (deltas : List String) (err : String)
  | preError (err : String)

/-- Environment of one runStream call: the outcome of Memory.recall during
system-prompt assembly, the formatted wall-clock time, and the LM outcome. -/
structure RunEnv where
  recallResult : Except String (List String)
  currentTime : String
  lm : LMOutcome

/-- First line of the BASE_INSTRUCTIONS constant of services/agent.ts.  The
constant is a fixed block of prose (assistant identity and memory
discipline); none of the verified properties depend on its text beyond it
being one fixed string, so the embedding carries its first sentence. -/
def BASE_INSTRUCTIONS : String :=
  "You are a helpful personal AI assistant called Vigil."

/-- The user message row persisted by step one of runStream. -/
def userMsg (tid content : String) : Message :=
  { thread_id := tid, role := Role.user,
    content := { role := Role.user, content := content } }

/-- Text of the system prompt: on recall success, base instructions, the
current time, and a bulleted memory block when recall returned entries; on
recall failure, the fallback is the base instructions alone. -/
def systemContentText (recallResult : Except String (List String))
    (currentTime : String) : String :=
  match recallResult with
  | Except.ok mems =>
      let base := BASE_INSTRUCTIONS ++ "\n\nCurrent time: " ++ currentTime
      if mems.isEmpty then base
      else base ++ "\n\nRelevant context from memory:\n"
        ++ String.intercalate "\n" (mems.map (fun m => "- " ++ m))
  | Except.error _ => BASE_INSTRUCTIONS

/-- The system message row persisted by assembleSystemPrompt. -/
def systemMsg (tid : String) (env : RunEnv) : Message :=
  { thread_id := tid, role := Role.system,
    content := { role := Role.system,
                 content := systemContentText env.recallResult env.currentTime } }

/-- The assistant message row persisted after the stream completes: model
identifier, the accumulated full_text, and the usage field spread only when
usage is present. -/
def assistantMsg (modelName tid fullText : String)
    (usage : Option TokenUsage) : Message :=
  { thread_id := tid, role := Role.assistant, model := some modelName,
    content := { role := Role.assistant, content := fullText,
                 usage := usage } }

/-- Count of messages whose structured content role differs from system;
the first-exchange test of runStream filters on content.role. -/
def nonSystemCount (msgs : List Message) : Nat :=
  msgs.countP (fun m => decide (¬ m.content.role = Role.system))

/-- Count of messages whose structured content role is system. -/
def systemCount (msgs : List Message) : Nat :=
  msgs.countP (fun m => decide (m.content.role = Role.system))

/-- Count of rows persisted with row role assistant. -/
def assistantCount (msgs : List Message) : Nat :=
  msgs.countP (fun m => decide (m.role = Role.assistant))

/-- AgentService.runStream as a transition on the thread's message list.
Step order follows the source: persist the user message; list messages and
test for the first exchange (exactly one non-system message); on a first
exchange persist the system prompt (with recall-failure fallback); run the
LM; on stream completion persist the assistant message with the accumulated
full_text and resolve usage; on a mid-stream raise the generator propagates
before the assistant persist is reached; on a pre-stream rejection the call
rejects after the user (and possibly system) rows were written.  The
returned Except carries the deltas and usage on success, the error
otherwise. -/
def runStream (modelName : String) (msgs : List Message)
    (tid userMessage : String) (env : RunEnv) :
    List Message × Except String (List String × Option TokenUsage) :=
  let msgs1 := msgs ++ [userMsg tid userMessage]
  let msgs2 :=
    if nonSystemCount msgs1 = 1 then msgs1 ++ [systemMsg tid env] else msgs1
  match env.lm with
  | LMOutcome.preError e => (msgs2, Except.error e)
  | LMOutcome.midStreamError _ e => (msgs2, Except.error e)
  | LMOutcome.success deltas usage =>
      (msgs2 ++ [assistantMsg modelName tid (String.join deltas) usage],
        Except.ok (deltas, usage))

/-- Thread states reachable from an empty thread by a sequence of
runStream calls on the same thread. -/
inductive Reachable (modelName tid : String) : List Message → Prop
  | nil : Reachable modelName tid []
  | step (s : List Message) (umsg : String) (env : RunEnv) :
      Reachable modelName tid s →
      Reachable modelName tid (runStream modelName s tid umsg env).1

/-- Invariant carried along runStream sequences: at most one system
message, and a system message only ever coexists with at least one
non-system message. -/
def AgentInv (s : List Message) : Prop :=
  systemCount s ≤ 1 ∧ (nonSystemCount s = 0 → systemCount s = 0)

/-- Environment of the first demo call: recall finds one memory and the LM
completes with usage. -/
def envFirst : RunEnv :=
  { recallResult := Except.ok ["User prefers dark mode"],
    currentTime := "Friday, March 6, 2026, 10:00 AM EST",
    lm := LMOutcome.success ["Hi", "!"]
      (some { input_tokens := 10, output_tokens := 5, total_tokens := 15 }) }

/-- Environment of the second demo call: recall is down and the LM
completes without usage. -/
def envSecond : RunEnv :=
  { recallResult := Except.error "Embedding API down",
    currentTime := "Friday, March 6, 2026, 10:05 AM EST",
    lm := LMOutcome.success ["Sure."] none }

/-- Thread state after two concrete exchanges from an empty thread. -/
def twoExchanges : List Message :=
  (runStream "m" (runStream "m" [] "t1" "hello" envFirst).1
    "t1" "more" envSecond).1

/-- Environment of the failing demo call: the LM yields one delta and then
raises mid-stream. -/
def envMidError : RunEnv :=
  { recallResult := Except.ok [],
    currentTime := "now",
    lm := LMOutcome.midStreamError ["Hel"] "boom" }

end Vigil.Agent

namespace Vigil.Sched

/-! ## Scheduler (services/scheduler.ts, skill-aware revision embedded in
src/src/services/jobs.test.ts) and skill dispatch -/

/-- One jobs-table row as the scheduler sees it, after the migration that
made prompt nullable and added the skill columns.  skill_config is the
opaque JSONB payload. -/
structure Job where
  id : String
  name : String
  schedule : Option String
  prompt : Option String
  skill_name : Option String
  skill_config : Option String
  enabled : Bool
  max_retries : Nat
  next_run_at : String
deriving DecidableEq, Repr

/-- The claimed run returned by claimPending (the columns the tick
consumes). -/
structure ClaimedRun where
  id : Nat
  job_id : String
  scheduled_for : String
  retry_count : Nat
deriving DecidableEq, Repr

/-- The wake thread created for a prompt run. -/
structure ThreadRec where
  id : String
deriving DecidableEq, Repr

/-- Result of a skill execution: the disableJob field is optional in the
source, so an absent field is the falsy default. -/
structure SkillResult where
  success : Bool
  message : String
  disableJob : Bool := false
deriving DecidableEq, Repr

/-- Externally visible side effects performed by a tick, in order. -/
inductive Action
  | resetAbandoned (count : Nat)
  | createRun (jobId : String) (scheduledFor : String) (inserted : Bool)
  | updateNextRun (jobId : String) (t : String)
  | disableJob (jobId : String)
  | failRun (runId : Nat) (err : String)
  | completeRun (runId : Nat) (threadId : Option String)
  | setLastRun (jobId : String)
  | notify (title : String) (body : String) (tag : String)
      (clickUrl : Option String)
  | createThread (runId : Nat)
  | runAgent (threadId : String) (prompt : String)
deriving DecidableEq, Repr

/-- Outcomes of every awaited dependency of one tick.  Each storage call
may reject (Except.error carries the driver error); croner's nextRun is
total because its caller catches (an invalid or absent cron yields none);
NotificationService.notify never rejects (it swallows delivery failures),
so it needs no outcome here. -/
structure TickDeps where
  resetAbandoned : Except String Nat
  findDue : Except String (List Job)
  createIdem : String → String → Except String Bool
  nextRun : Option String → Option String
  updateJob : String → Except String Unit
  claimPending : Except String (Option ClaimedRun)
  findById : String → Except String (Option Job)
  failRun : Nat → Except String Unit
  completeRun : Nat → Except String Unit
  skillExecute : String → Option (Except String SkillResult)
  createThread : Nat → Except String ThreadRec
  drainAgent : String → Except String Unit
  appUrl : Option String

/-- Step two of the tick: for each due job, attempt the idempotent run
insert, then advance next_run_at from the cron, disabling the job when the
cron admits no future fire. -/
def enqueueDue (deps : TickDeps) : List Job → Except String (List Action)
  | [] => Except.ok []
  | j :: rest => do
      let inserted ← deps.createIdem j.id j.next_run_at
      let headActs ←
        match deps.nextRun j.schedule with
        | some t => do
            let _ ← deps.updateJob j.id
            pure [Action.createRun j.id j.next_run_at inserted,
                  Action.updateNextRun j.id t]
        | none => do
            let _ ← deps.updateJob j.id
            pure [Action.createRun j.id j.next_run_at inserted,
                  Action.disableJob j.id]
      let tailActs ← enqueueDue deps rest
      pure (headActs ++ tailActs)

/-- The payload dispatch inside the inner try of the tick: a truthy
skill_name selects the skill path (unknown skill fails the run; a
success=false result is thrown into the failure path; disable_job disables
the job; then complete with no thread and update last_run_at), otherwise
the prompt path (wake thread, drain the agent stream, complete with the
thread id, update last_run_at, success notification). -/
def runPayload (deps : TickDeps) (run : ClaimedRun) (job : Job) :
    Except String (List Action) :=
  if jsTruthy job.skill_name then
    let sname := job.skill_name.getD ""
    match deps.skillExecute sname with
    | none => do
        let _ ← deps.failRun run.id
        pure [Action.failRun run.id ("Unknown skill: " ++ sname)]
    | some exec => do
        let result ← exec
        if result.success then do
          let disableActs ←
            if result.disableJob then do
              let _ ← deps.updateJob job.id
              pure [Action.disableJob job.id]
            else pure ([] : List Action)
          let _ ← deps.completeRun run.id
          let _ ← deps.updateJob job.id
          pure (disableActs ++ [Action.completeRun run.id none,
            Action.setLastRun job.id])
        else
          Except.error result.message
  else do
    let thread ← deps.createThread run.id
    let _ ← deps.drainAgent thread.id
    let _ ← deps.completeRun run.id
    let _ ← deps.updateJob job.id
    pure [Action.createThread run.id,
      Action.runAgent thread.id (job.prompt.getD ""),
      Action.completeRun run.id (some thread.id),
      Action.setLastRun job.id,
      Action.notify ("Job completed: " ++ job.name)
        ((job.prompt.getD "").take 200) "white_check_mark"
        (if jsTruthy deps.appUrl
         then some (deps.appUrl.getD "" ++ "/threads/" ++ thread.id)
         else none)]

/-- The inner try/catch of the tick around the payload: on an exception or
a success=false skill result, fail the run (a rejection of that fail call
itself escalates to the outer catch) and, when retries are exhausted, send
the failure notification. -/
def executeWithCatch (deps : TickDeps) (run : ClaimedRun) (job : Job) :
    Except String (List Action) :=
  match runPayload deps run job with
  | Except.ok acts => Except.ok acts
  | Except.error e => do
      let _ ← deps.failRun run.id
      let notifyActs :=
        if job.max_retries ≤ run.retry_count + 1 then
          [Action.notify ("Job failed: " ++ job.name) (e.take 200) "x" none]
        else []
      pure (Action.failRun run.id e :: notifyActs)

/-- The body of the outer try of SchedulerService.tick: reclaim abandoned
runs, enqueue due jobs, claim at most one pending run, resolve its job
(missing job fails the run), then execute the payload under the inner
catch.  Any rejection escaping these steps is the outer catch's input. -/
def tickBody (deps : TickDeps) : Except String (List Action) := do
  let n ← deps.resetAbandoned
  let due ← deps.findDue
  let enqueueActs ← enqueueDue deps due
  let claimed ← deps.claimPending
  match claimed with
  | none => pure (Action.resetAbandoned n :: enqueueActs)
  | some run => do
      let job? ← deps.findById run.job_id
      match job? with
      | none => do
          let _ ← deps.failRun run.id
          pure (Action.resetAbandoned n :: enqueueActs
            ++ [Action.failRun run.id "Job not found"])
      | some job => do
          let acts ← executeWithCatch deps run job
          pure (Action.resetAbandoned n :: enqueueActs ++ acts)

/-- Observable outcome of one tick: either it completed its actions, or an
internal error was logged and the tick ended.  There is no third
alternative — the type has no propagation channel, mirroring the outer
try/catch that encloses the whole tick body. -/
inductive TickResult
  | done (actions : List Action)
  | loggedError (err : String)
deriving DecidableEq, Repr

/-- SchedulerService.tick: the outer catch turns any internal rejection
into a log entry and a normal return. -/
def tick (deps : TickDeps) : TickResult :=
  match tickBody deps with
  | Except.ok acts => TickResult.done acts
  | Except.error e => TickResult.loggedError e

/-- Dependencies whose very first awaited call (resetAbandoned) rejects
with a storage failure; every other outcome is benign. -/
def depsStorageDown : TickDeps :=
  { resetAbandoned := Except.error "connection refused"
    findDue := Except.ok []
    createIdem := fun _ _ => Except.ok true
    nextRun := fun _ => none
    updateJob := fun _ => Except.ok ()
    claimPending := Except.ok none
    findById := fun _ => Except.ok none
    failRun := fun _ => Except.ok ()
    completeRun := fun _ => Except.ok ()
    skillExecute := fun _ => none
    createThread := fun _ => Except.ok { id := "t1" }
    drainAgent := fun _ => Except.ok ()
    appUrl := none }

end Vigil.Sched

namespace Vigil.Departure

/-! ## Departure-check skill (skills/departure-check.ts) -/

/-- Parsed departure-check config (after zod defaults were applied). -/
structure Config where
  origin : String
  destination : String
  arrivalTime : String
  leadMinutes : Nat
  pollIntervalMinutes : Nat
deriving Repr

/-- The directions result fields the skill consumes: nominal duration in
seconds, duration_in_traffic in seconds when present, route summary. -/
structure DirectionsResult where
  duration : Nat
  durationInTraffic : Option Nat
  routeSummary : String
deriving Repr

/-- Outcome of the fetchDirections call inside one loop iteration. -/
inductive DirectionsOutcome
  | ok (r : DirectionsResult)
  | error (msg : String)

/-- A push notification as handed to NotificationService.notify. -/
structure Notification where
  title : String
  body : String
  tag : String
deriving DecidableEq, Repr

/-- What one loop iteration of DepartureCheckSkill.execute does: either it
returns a SkillResult (having sent the listed notifications), or it falls
through to the interruptible sleep and the next poll. -/
inductive IterOutcome
  | finished (result : Sched.SkillResult) (notifications : List Notification)
  | nextPoll
deriving Repr

/-- One iteration of the polling loop, for an uncancelled signal.  Instants
are epoch milliseconds; arrivalMs is today's arrival instant built from the
wall clock and config.arrivalTime; fmt models toLocaleTimeString.  Source
order: past-arrival check, directions call (errors are logged and the loop
continues), leave_by from duration_in_traffic if present else nominal
duration, then the lead-time comparison sending the Time-to-leave
notification with disableJob. -/
def iteration (cfg : Config) (now arrivalMs : Int) (dir : DirectionsOutcome)
    (fmt : Int → String) : IterOutcome :=
  if arrivalMs ≤ now then
    IterOutcome.finished
      { success := true, message := "Past arrival time", disableJob := true }
      []
  else
    match dir with
    | DirectionsOutcome.error _ => IterOutcome.nextPoll
    | DirectionsOutcome.ok r =>
        let durationSecs : Nat := r.durationInTraffic.getD r.duration
        let leaveBy : Int := arrivalMs - (durationSecs : Int) * 1000
        let leadMs : Int := (cfg.leadMinutes : Int) * 60000
        if leaveBy ≤ now + leadMs then
          let durationMin : Nat := (durationSecs + 30) / 60
          IterOutcome.finished
            { success := true,
              message := "Notification sent — leave by " ++ fmt leaveBy,
              disableJob := true }
            [{ title := "Time to leave",
               body := "Leave for daycare — ~" ++ toString durationMin
                 ++ " min drive via " ++ r.routeSummary,
               tag := "car" }]
        else IterOutcome.nextPoll

/-- The seed scenario of the spec: wall clock 16:15, arrival 16:45 (epoch
milliseconds from local midnight), lead 7 minutes, directions with
duration_in_traffic 1500 s. -/
def cfgDemo : Config :=
  { origin := "123 Home St", destination := "456 Daycare Ave",
    arrivalTime := "16:45", leadMinutes := 7, pollIntervalMinutes := 5 }

def dirDemo : DirectionsResult :=
  { duration := 1800, durationInTraffic := some 1500,
    routeSummary := "I-90 E" }

def nowDemo : Int := 58500000

def arrivalDemo : Int := 60300000

/-- A fixed stand-in for toLocaleTimeString. -/
def fmtDemo : Int → String := fun _ => "04:20 PM"

/-- The skill result of the demo iteration. -/
def resultDemo : Sched.SkillResult :=
  { success := true,
    message := "Notification sent — leave by " ++ fmtDemo
      (arrivalDemo - ((dirDemo.durationInTraffic.getD dirDemo.duration
        : Nat) : Int) * 1000),
    disableJob := true }

/-- Demo tick dependencies for the skill path: all storage is healthy and
the registry resolves the departure-check skill to the demo result. -/
def depsSkillDemo (result : Sched.SkillResult) : Sched.TickDeps :=
  { resetAbandoned := Except.ok 0
    findDue := Except.ok []
    createIdem := fun _ _ => Except.ok true
    nextRun := fun _ => none
    updateJob := fun _ => Except.ok ()
    claimPending := Except.ok none
    findById := fun _ => Except.ok none
    failRun := fun _ => Except.ok ()
    completeRun := fun _ => Except.ok ()
    skillExecute := fun n =>
      if n = "departure-check" then some (Except.ok result) else none
    createThread := fun _ => Except.ok { id := "t1" }
    drainAgent := fun _ => Except.ok ()
    appUrl := none }

/-- The claimed demo run and its skill job. -/
def runDemo : Sched.ClaimedRun :=
  { id := 9, job_id := "3", scheduled_for := "2026-03-06T16:00:00Z",
    retry_count := 0 }

def jobDemo : Sched.Job :=
  { id := "3", name := "Daycare departure", schedule := none,
    prompt := none, skill_name := some "departure-check",
    skill_config := some "cfg", enabled := true, max_retries := 3,
    next_run_at := "2026-03-06T16:00:00Z" }

end Vigil.Departure

namespace Vigil.JobSvc

/-! ## Job service (services/jobs.ts, skill-aware revision embedded as
src/unnamed/part_018) -/

/-- Input of JobService.create: a cron schedule or a one-shot run_at, an
optional prompt, and an optional skill payload. -/
structure CreateJobInput where
  name : String
  schedule : Option String := none
  run_at : Option String := none
  prompt : Option String := none
  enabled : Option Bool := none
  max_retries : Option Nat := none
  skill_name : Option String := none
  skill_config : Option String := none

/-- A stored jobs row as returned by JobRepository.create, with the
repository defaults applied. -/
structure StoredJob where
  name : String
  schedule : Option String
  prompt : Option String
  enabled : Bool
  max_retries : Nat
  skill_name : Option String
  skill_config : Option String
  next_run_at : String
deriving DecidableEq, Repr

/-- JobService.create followed by JobRepository.create.  computeNextRun
models croner (none for an invalid cron).  Validation: a truthy schedule
must parse, else a truthy run_at is used, else the call rejects; a truthy
skill_name must be registered.  A missing skill_config only logs a
warning, and no check relates prompt to the skill payload. -/
def create (validSkillNames : List String)
    (computeNextRun : String → Option String) (input : CreateJobInput) :
    Except String StoredJob := do
  let nextRunAt ←
    if jsTruthy input.schedule then
      match computeNextRun (input.schedule.getD "") with
      | some t => Except.ok t
      | none =>
          Except.error ("Invalid cron expression: " ++ input.schedule.getD "")
    else if jsTruthy input.run_at then
      Except.ok (input.run_at.getD "")
    else
      Except.error "Either schedule (cron) or run_at (timestamp) is required"
  let _ ←
    if jsTruthy input.skill_name then
      if (input.skill_name.getD "") ∈ validSkillNames then Except.ok ()
      else Except.error ("Unknown skill: " ++ input.skill_name.getD "")
    else Except.ok ()
  Except.ok
    { name := input.name
      schedule := input.schedule
      prompt := input.prompt
      enabled := input.enabled.getD true
      max_retries := input.max_retries.getD 3
      skill_name := input.skill_name
      skill_config := input.skill_config
      next_run_at := nextRunAt }

/-- A create input carrying both a prompt and a full skill payload. -/
def inputBoth : CreateJobInput :=
  { name := "Hybrid", schedule := some "0 8 * * *",
    prompt := some "status", skill_name := some "departure-check",
    skill_config := some "cfg" }

/-- A create input carrying neither a prompt nor a skill payload. -/
def inputNeither : CreateJobInput :=
  { name := "Empty", schedule := some "0 8 * * *" }

/-- A cron evaluator fixture: every expression fires next at a fixed
instant. -/
def cnrDemo : String → Option String :=
  fun _ => some "2026-03-02T08:00:00Z"

end Vigil.JobSvc

namespace Vigil.Memory

/-! ## Memory service (services/memory.ts) and repository
(repositories/memory.ts, embedded in src/src/repositories/jobs.test.ts) -/

/-- Source of a memory entry. -/
inductive MemSource
  | agent
  | user
deriving DecidableEq, Repr

/-- One memory_entries row; deleted models deleted_at IS NOT NULL. -/
structure MemoryEntry where
  id : Nat
  content : String
  embedding : List Int
  source : MemSource
  thread_id : Option String
  deleted : Bool
deriving DecidableEq, Repr

/-- The memory_entries table plus the next id the store would issue. -/
structure MemStore where
  entries : List MemoryEntry
  nextId : Nat
deriving DecidableEq, Repr

/-- MemoryRepository.update: UPDATE content and embedding WHERE id = ? AND
deleted_at IS NULL, RETURNING the row via executeTakeFirst — none when the
entry is missing or soft-deleted. -/
def repoUpdate (st : MemStore) (id : Nat) (content : String)
    (embedding : List Int) : Option MemoryEntry × MemStore :=
  (Option.map (fun e => { e with content := content, embedding := embedding })
      (st.entries.find? (fun e => decide (e.id = id ∧ e.deleted = false))),
    { st with entries := st.entries.map (fun e =>
        if e.id = id ∧ e.deleted = false then
          { e with content := content, embedding := embedding }
        else e) })

/-- The fresh row INSERTed by MemoryRepository.create. -/
def freshMemory (st : MemStore) (content : String) (embedding : List Int)
    (source : MemSource) (threadId : Option String) : MemoryEntry :=
  { id := st.nextId, content := content, embedding := embedding,
    source := source, thread_id := threadId, deleted := false }

/-- MemoryRepository.create: INSERT the entry and return it. -/
def repoCreate (st : MemStore) (content : String) (embedding : List Int)
    (source : MemSource) (threadId : Option String) :
    MemoryEntry × MemStore :=
  let e := freshMemory st content embedding source threadId
  (e, { entries := st.entries ++ [e], nextId := st.nextId + 1 })

/-- MemoryService.remember: embed the content (the embedding call may
reject with Upstream, modelled by the Except parameter); with a truthy
replace_id, update that entry's content and embedding in one repository
call and return its result (none when the entry is soft-deleted or
missing); otherwise create and return a new entry. -/
def remember (st : MemStore) (embedOutcome : Except String (List Int))
    (content : String) (source : MemSource) (threadId : Option String)
    (replaceId : Option Nat) :
    Except String (Option MemoryEntry) × MemStore :=
  match embedOutcome with
  | Except.error e => (Except.error e, st)
  | Except.ok embedding =>
      match replaceId with
      | some rid =>
          let r := repoUpdate st rid content embedding
          (Except.ok r.1, r.2)
      | none =>
          let r := repoCreate st content embedding source threadId
          (Except.ok (some r.1), r.2)

/-- A store whose only entry, id 1, is already soft-deleted. -/
def storeDeleted : MemStore :=
  { entries := [{ id := 1, content := "Old fact", embedding := [1],
                  source := MemSource.agent, thread_id := none,
                  deleted := true }],
    nextId := 2 }

/-- A store whose only entry, id 1, is live. -/
def storeLive : MemStore :=
  { entries := [{ id := 1, content := "Old fact", embedding := [1],
                  source := MemSource.agent, thread_id := none,
                  deleted := false }],
    nextId := 2 }

end Vigil.Memory

namespace Vigil.FetchUrl

/-! ## fetch_url tool (tools/fetch-url.ts) -/

/-- The response fields fetchUrl consumes. -/
structure HttpResponse where
  ok : Bool
  status : Nat
  statusText : String
  contentType : Option String
deriving Repr

/-- Outcome of the guarded body of fetchUrl: either some awaited step threw
(network failure, timeout, body read, extraction), or a response arrived
and extractAsMarkdown produced the given character sequence from its body.
Strings are modelled as character lists so that slicing lengths are
symbolic. -/
inductive FetchOutcome
  | thrown (message : String)
  | response (r : HttpResponse) (extracted : List Char)

/-- Substring test over character lists (String.prototype.includes). -/
def listContainsSub (sub : List Char) : List Char → Bool
  | [] => sub.isEmpty
  | c :: rest =>
      if sub.isPrefixOf (c :: rest) then true else listContainsSub sub rest

/-- String.prototype.includes, via the character lists. -/
def strContains (s sub : String) : Bool := listContainsSub sub.data s.data

/-- MAX_CONTENT_LENGTH of tools/fetch-url.ts. -/
def MAX_CONTENT_LENGTH : Nat := 20000

/-- The marker appended after slicing: a blank line and [Content
truncated]. -/
def TRUNCATION_MARKER : List Char := "\n\n[Content truncated]".data

/-- fetchUrl over an explicit outcome.  Source order inside the try: HTTP
failure returns a failure string; a content type including neither text/
nor application/json is rejected with a message; the extracted markdown
longer than MAX_CONTENT_LENGTH is sliced to MAX_CONTENT_LENGTH and the
marker is appended; an empty result falls back to a fixed message.  The
catch turns any thrown error into a failure string, so the function is
total — the tool never raises. -/
def fetchUrl (outcome : FetchOutcome) : List Char :=
  match outcome with
  | FetchOutcome.thrown m => ("Failed to fetch URL: " ++ m).data
  | FetchOutcome.response r extracted =>
      if !r.ok then
        ("Failed to fetch URL: HTTP " ++ toString r.status ++ " "
          ++ r.statusText).data
      else
        let ct := r.contentType.getD ""
        if !strContains ct "text/" && !strContains ct "application/json" then
          ("Cannot read this content type: " ++ ct).data
        else
          let text :=
            if MAX_CONTENT_LENGTH < extracted.length then
              extracted.take MAX_CONTENT_LENGTH ++ TRUNCATION_MARKER
            else extracted
          if text.isEmpty then "Page returned no readable content.".data
          else text

/-- A successful text/html response header. -/
def respDemo : HttpResponse :=
  { ok := true, status := 200, statusText := "OK",
    contentType := some "text/html" }

/-- A successful text/html response whose extracted article runs to 20001
characters. -/
def longPage : FetchOutcome :=
  FetchOutcome.response respDemo (List.replicate 20001 'a')

end Vigil.FetchUrl

namespace Vigil.Directions

/-! ## Directions service (services/directions.ts) and tool
(tools/directions.ts) -/

/-- Input of fetchDirections; the directions tool passes its four zod
parameters through unchanged, and the zod schema marks both time
parameters optional with no mutual-exclusion refinement. -/
structure DirectionsInput where
  origin : String
  destination : String
  departure_time : Option String := none
  arrival_time : Option String := none

/-- toEpochSeconds: Date.parse, none on NaN, else floor(ms / 1000). -/
def toEpochSeconds (parse : String → Option Int) (iso : String) :
    Option Int :=
  match parse iso with
  | none => none
  | some ms => some (Int.fdiv ms 1000)

/-- The query parameters built by fetchDirections.  Source order: a truthy
arrival_time wins and departure_time is never consulted; else a truthy
departure_time is used; else departure_time=now.  The falsy check on the
parsed epoch (JS !epoch) also rejects the epoch value 0. -/
def buildParams (input : DirectionsInput) (parse : String → Option Int)
    (apiKey : String) : Except String (List (String × String)) :=
  let base := [("origin", input.origin),
               ("destination", input.destination), ("key", apiKey)]
  if jsTruthy input.arrival_time then
    match toEpochSeconds parse (input.arrival_time.getD "") with
    | some e =>
        if e = 0 then
          Except.error ("Invalid arrival_time: " ++ input.arrival_time.getD ""
            ++ ". Use ISO 8601 format.")
        else Except.ok (base ++ [("arrival_time", toString e)])
    | none =>
        Except.error ("Invalid arrival_time: " ++ input.arrival_time.getD ""
          ++ ". Use ISO 8601 format.")
  else if jsTruthy input.departure_time then
    match toEpochSeconds parse (input.departure_time.getD "") with
    | some e =>
        if e = 0 then
          Except.error ("Invalid departure_time: "
            ++ input.departure_time.getD "" ++ ". Use ISO 8601 format.")
        else Except.ok (base ++ [("departure_time", toString e)])
    | none =>
        Except.error ("Invalid departure_time: "
          ++ input.departure_time.getD "" ++ ". Use ISO 8601 format.")
  else
    Except.ok (base ++ [("departure_time", "now")])

/-- A call supplying both time parameters. -/
def inputBothTimes : DirectionsInput :=
  { origin := "Home", destination := "Work",
    departure_time := some "2026-02-27T16:00:00Z",
    arrival_time := some "2026-02-27T16:45:00Z" }

/-- A call supplying neither time parameter. -/
def inputNoTimes : DirectionsInput :=
  { origin := "Home", destination := "Work" }

/-- A fixed Date.parse fixture: every string parses to the same epoch. -/
def parseDemo : String → Option Int := fun _ => some 1774622700000

end Vigil.Directions

/-! ## Theorems -/

namespace Vigil.JobRuns

/-! ### Properties of createIdempotent -/

theorem createIdempotent_inserts (tbl : RunTable) (jobId scheduledFor : String)
    (hrun : hasRunning tbl jobId = false)
    (hpair : hasPair tbl jobId scheduledFor = false) :
    createIdempotent tbl jobId scheduledFor =
      (insertFresh tbl jobId scheduledFor, true) := by
  simp [createIdempotent, hrun, hpair]

theorem createIdempotent_suppressed (tbl : RunTable)
    (jobId scheduledFor : String)
    (h : hasRunning tbl jobId = true ∨ hasPair tbl jobId scheduledFor = true) :
    createIdempotent tbl jobId scheduledFor = (tbl, false) := by
  rcases h with h | h <;> simp [createIdempotent, h]

theorem pairCount_insertFresh (tbl : RunTable) (jobId scheduledFor : String) :
    pairCount (insertFresh tbl jobId scheduledFor) jobId scheduledFor
      = pairCount tbl jobId scheduledFor + 1 := by
  simp [pairCount, insertFresh, freshRun, List.countP_append]

theorem hasPair_false_pairCount (tbl : RunTable) (jobId scheduledFor : String)
    (h : hasPair tbl jobId scheduledFor = false) :
    pairCount tbl jobId scheduledFor = 0 := by
  rw [pairCount, List.countP_eq_zero]
  intro r hr hp
  have : hasPair tbl jobId scheduledFor = true := by
    rw [hasPair, List.any_eq_true]
    exact ⟨r, hr, hp⟩
  simp [this] at h

theorem hasPair_insertFresh (tbl : RunTable) (jobId scheduledFor : String) :
    hasPair (insertFresh tbl jobId scheduledFor) jobId scheduledFor = true := by
  rw [hasPair, List.any_eq_true]
  exact ⟨freshRun tbl jobId scheduledFor, by simp [insertFresh],
    by simp [freshRun]⟩

/-- Claim C3.  JobRunRepository.createIdempotent inserts one
(job_id, scheduled_for) run row and returns true, except that it inserts
nothing and returns false when a row with the same (job_id, scheduled_for)
already exists or when some run of the same job currently has status
running; and two createIdempotent calls with the same (job_id,
scheduled_for) leave exactly one row carrying that pair. -/
theorem claim_C3 (tbl : RunTable) (jobId scheduledFor : String) :
    (hasRunning tbl jobId = false → hasPair tbl jobId scheduledFor = false →
      createIdempotent tbl jobId scheduledFor
        = (insertFresh tbl jobId scheduledFor, true))
    ∧ ((hasRunning tbl jobId = true ∨ hasPair tbl jobId scheduledFor = true) →
      createIdempotent tbl jobId scheduledFor = (tbl, false))
    ∧ (hasRunning tbl jobId = false → hasPair tbl jobId scheduledFor = false →
      (createIdempotent tbl jobId scheduledFor).2 = true
      ∧ (createIdempotent
          (createIdempotent tbl jobId scheduledFor).1 jobId scheduledFor).2
            = false
      ∧ pairCount (createIdempotent
          (createIdempotent tbl jobId scheduledFor).1 jobId scheduledFor).1
          jobId scheduledFor = 1) := by
  refine ⟨fun hrun hpair => createIdempotent_inserts tbl jobId scheduledFor
    hrun hpair, fun h => createIdempotent_suppressed tbl jobId scheduledFor h,
    fun hrun hpair => ?_⟩
  have h1 := createIdempotent_inserts tbl jobId scheduledFor hrun hpair
  have h2 := createIdempotent_suppressed (insertFresh tbl jobId scheduledFor)
    jobId scheduledFor (Or.inr (hasPair_insertFresh tbl jobId scheduledFor))
  refine ⟨by rw [h1], by rw [h1, h2], ?_⟩
  rw [h1, h2]
  rw [pairCount_insertFresh tbl jobId scheduledFor,
    hasPair_false_pairCount tbl jobId scheduledFor hpair]

theorem claim_C3_witness :
    (createIdempotent tableC3 "7" "2026-03-01T08:00:00Z").2 = true
    ∧ (createIdempotent (createIdempotent tableC3 "7" "2026-03-01T08:00:00Z").1
        "7" "2026-03-01T08:00:00Z").2 = false
    ∧ pairCount (createIdempotent
        (createIdempotent tableC3 "7" "2026-03-01T08:00:00Z").1
        "7" "2026-03-01T08:00:00Z").1 "7" "2026-03-01T08:00:00Z" = 1 :=
  (claim_C3 tableC3 "7" "2026-03-01T08:00:00Z").2.2 rfl rfl

/-! ### Properties of complete and fail (claim C5) -/

/-- Counterexample to claim C5 as stated: failing the single claimed run of
tableC5 marks it failed, increments retry_count, records the error and
clears the lease, but its completed_at is still NULL afterwards — the SET
list of JobRunRepository.fail does not include completed_at, so fail does
not set completed_at as the claim asserts. -/
theorem claim_C5_counterexample :
    ((fail tableC5 1 "boom").rows.all
      (fun r => r.status = RunStatus.failed ∧ r.retry_count = 1
        ∧ r.error = some "boom" ∧ r.locked_until = none
        ∧ r.completed_at = none)) = true
    ∧ (fail tableC5 1 "boom").rows.length = 1 := by
  constructor <;> rfl

/-- Claim C5 amended.  For every run row r with r.id = id:
JobRunRepository.fail sets status failed, increments retry_count by one,
records the error string and clears the lease, while leaving completed_at
unchanged (it stays NULL for a freshly claimed run); and
JobRunRepository.complete sets status completed, sets completed_at and the
optional thread id, clears the lease and leaves retry_count unchanged. -/
theorem claim_C5 (tbl : RunTable) (id : Nat) (err : String)
    (threadId : Option String) (now : Nat) (r : JobRun)
    (hr : r ∈ tbl.rows) (hid : r.id = id) :
    (∃ r₁ ∈ (fail tbl id err).rows,
      r₁.status = RunStatus.failed ∧ r₁.retry_count = r.retry_count + 1
      ∧ r₁.error = some err ∧ r₁.locked_until = none
      ∧ r₁.completed_at = r.completed_at)
    ∧ (∃ r₂ ∈ (complete tbl id threadId now).rows,
      r₂.status = RunStatus.completed ∧ r₂.completed_at = some now
      ∧ r₂.thread_id = threadId ∧ r₂.locked_until = none
      ∧ r₂.retry_count = r.retry_count) := by
  constructor
  · refine ⟨failedRow r err, ?_, by simp [failedRow]⟩
    rw [fail]
    exact List.mem_map.mpr ⟨r, hr, by simp [hid]⟩
  · refine ⟨completedRow r threadId now, ?_, by simp [completedRow]⟩
    rw [complete]
    exact List.mem_map.mpr ⟨r, hr, by simp [hid]⟩

theorem claim_C5_witness :
    (∃ r₁ ∈ (fail tableC5 1 "boom").rows,
      r₁.status = RunStatus.failed ∧ r₁.retry_count = 0 + 1
      ∧ r₁.error = some "boom" ∧ r₁.locked_until = none
      ∧ r₁.completed_at = none)
    ∧ (∃ r₂ ∈ (complete tableC5 1 (some "42") 600).rows,
      r₂.status = RunStatus.completed ∧ r₂.completed_at = some 600
      ∧ r₂.thread_id = some "42" ∧ r₂.locked_until = none
      ∧ r₂.retry_count = 0) :=
  claim_C5 tableC5 1 "boom" (some "42") 600
    { id := 1, job_id := "7", scheduled_for := "2026-03-01T08:00:00Z",
      locked_until := some 300, status := RunStatus.running,
      retry_count := 0, thread_id := none, error := none,
      started_at := some 0, completed_at := none }
    (by simp [tableC5]) rfl

end Vigil.JobRuns

namespace Vigil.Agent

theorem nonSystemCount_append (a b : List Message) :
    nonSystemCount (a ++ b) = nonSystemCount a + nonSystemCount b :=
  List.countP_append _ _ _

theorem systemCount_append (a b : List Message) :
    systemCount (a ++ b) = systemCount a + systemCount b :=
  List.countP_append _ _ _

theorem assistantCount_append (a b : List Message) :
    assistantCount (a ++ b) = assistantCount a + assistantCount b :=
  List.countP_append _ _ _

theorem counts_userMsg (tid c : String) :
    systemCount [userMsg tid c] = 0 ∧ nonSystemCount [userMsg tid c] = 1
      ∧ assistantCount [userMsg tid c] = 0 := by
  refine ⟨?_, ?_, ?_⟩ <;> rfl

theorem counts_systemMsg (tid : String) (env : RunEnv) :
    systemCount [systemMsg tid env] = 1
      ∧ nonSystemCount [systemMsg tid env] = 0
      ∧ assistantCount [systemMsg tid env] = 0 := by
  refine ⟨?_, ?_, ?_⟩ <;>
    simp [systemCount, nonSystemCount, assistantCount, systemMsg,
      List.countP_cons]

theorem counts_assistantMsg (modelName tid t : String)
    (u : Option TokenUsage) :
    systemCount [assistantMsg modelName tid t u] = 0
      ∧ nonSystemCount [assistantMsg modelName tid t u] = 1
      ∧ assistantCount [assistantMsg modelName tid t u] = 1 := by
  refine ⟨?_, ?_, ?_⟩ <;>
    simp [systemCount, nonSystemCount, assistantCount, assistantMsg,
      List.countP_cons]

/-- The messages written by one runStream call are appended after the
existing ones; the appended block holds a system-content message exactly
when the thread held no non-system message before the call, always at
least one non-system message (the user message), and no assistant row when
the LM stream raised mid-way. -/
theorem runStream_appends (modelName : String) (s : List Message)
    (tid umsg : String) (env : RunEnv) :
    ∃ t, (runStream modelName s tid umsg env).1 = s ++ t
      ∧ systemCount t = (if nonSystemCount s = 0 then 1 else 0)
      ∧ 1 ≤ nonSystemCount t
      ∧ (∀ deltas err, env.lm = LMOutcome.midStreamError deltas err →
          assistantCount t = 0) := by
  have hns := nonSystemCount_append s [userMsg tid umsg]
  have hu1 : nonSystemCount [userMsg tid umsg] = 1 := rfl
  by_cases h0 : nonSystemCount s = 0
  · have hfirst : nonSystemCount (s ++ [userMsg tid umsg]) = 1 := by omega
    rcases henv : env.lm with ⟨deltas, usage⟩ | ⟨deltas, err⟩ | err
    · refine ⟨[userMsg tid umsg] ++ [systemMsg tid env]
        ++ [assistantMsg modelName tid (String.join deltas) usage],
        by simp [runStream, henv, hfirst], ?_, ?_, ?_⟩
      · rw [if_pos h0]
        rfl
      · simp [nonSystemCount, userMsg, systemMsg, assistantMsg,
          List.countP_cons, List.countP_nil]
      · simp [henv]
    · refine ⟨[userMsg tid umsg] ++ [systemMsg tid env],
        by simp [runStream, henv, hfirst], ?_, ?_, ?_⟩
      · rw [if_pos h0]
        rfl
      · simp [nonSystemCount, userMsg, systemMsg, List.countP_cons,
          List.countP_nil]
      · simp [assistantCount, userMsg, systemMsg, List.countP_cons,
          List.countP_nil]
    · refine ⟨[userMsg tid umsg] ++ [systemMsg tid env],
        by simp [runStream, henv, hfirst], ?_, ?_, ?_⟩
      · rw [if_pos h0]
        rfl
      · simp [nonSystemCount, userMsg, systemMsg, List.countP_cons,
          List.countP_nil]
      · simp [henv]
  · have hfirst : ¬ nonSystemCount (s ++ [userMsg tid umsg]) = 1 := by omega
    rcases henv : env.lm with ⟨deltas, usage⟩ | ⟨deltas, err⟩ | err
    · refine ⟨[userMsg tid umsg]
        ++ [assistantMsg modelName tid (String.join deltas) usage],
        by simp [runStream, henv, hfirst], ?_, ?_, ?_⟩
      · rw [if_neg h0]
        rfl
      · simp [nonSystemCount, userMsg, assistantMsg, List.countP_cons,
          List.countP_nil]
      · simp [henv]
    · refine ⟨[userMsg tid umsg],
        by simp [runStream, henv, hfirst], ?_, ?_, ?_⟩
      · rw [if_neg h0]
        rfl
      · simp [nonSystemCount, userMsg, List.countP_cons, List.countP_nil]
      · simp [assistantCount, userMsg, List.countP_cons, List.countP_nil]
    · refine ⟨[userMsg tid umsg],
        by simp [runStream, henv, hfirst], ?_, ?_, ?_⟩
      · rw [if_neg h0]
        rfl
      · simp [nonSystemCount, userMsg, List.countP_cons, List.countP_nil]
      · simp [henv]

theorem agentInv_step (modelName : String) (s : List Message)
    (tid umsg : String) (env : RunEnv) (h : AgentInv s) :
    AgentInv (runStream modelName s tid umsg env).1 := by
  obtain ⟨t, ht, hsys, hnon, -⟩ := runStream_appends modelName s tid umsg env
  rcases h with ⟨h1, h2⟩
  constructor
  · rw [ht, systemCount_append, hsys]
    by_cases h0 : nonSystemCount s = 0
    · rw [if_pos h0, h2 h0]
    · rw [if_neg h0]
      omega
  · intro hz
    rw [ht, nonSystemCount_append] at hz
    exfalso
    omega

theorem agentInv_reachable (modelName tid : String) (s : List Message)
    (h : Reachable modelName tid s) : AgentInv s := by
  induction h with
  | nil => exact ⟨by simp [systemCount], by intro; rfl⟩
  | step s umsg env _ ih => exact agentInv_step modelName s tid umsg env ih

/-- Claim C2.  Over every sequence of AgentService.runStream calls on a
thread, at most one system-content message is ever persisted; a call writes
a system message exactly when the thread held no non-system message before
it (so the just-written user message is the only non-system message at
assembly time); and every call only appends new rows after the existing
ones, so a system message, once written, is never mutated by the Agent
Service. -/
theorem claim_C2 (modelName tid : String) (s : List Message)
    (h : Reachable modelName tid s) :
    systemCount s ≤ 1
    ∧ ∀ umsg env, ∃ t, (runStream modelName s tid umsg env).1 = s ++ t
        ∧ systemCount t = (if nonSystemCount s = 0 then 1 else 0) := by
  refine ⟨(agentInv_reachable modelName tid s h).1, fun umsg env => ?_⟩
  obtain ⟨t, ht, hsys, -⟩ := runStream_appends modelName s tid umsg env
  exact ⟨t, ht, hsys⟩

theorem claim_C2_witness :
    systemCount twoExchanges ≤ 1
    ∧ ∃ t, (runStream "m" twoExchanges "t1" "x" envSecond).1
        = twoExchanges ++ t
        ∧ systemCount t = (if nonSystemCount twoExchanges = 0 then 1 else 0) :=
  have h : Reachable "m" "t1" twoExchanges :=
    Reachable.step _ "more" envSecond
      (Reachable.step _ "hello" envFirst Reachable.nil)
  ⟨(claim_C2 "m" "t1" twoExchanges h).1,
    (claim_C2 "m" "t1" twoExchanges h).2 "x" envSecond⟩

/-- Counterexample to claim C1 as stated: when the LM stream raises after
yielding the delta Hel, runStream ends with that error but the resulting
thread holds no assistant row at all — the stream generator of runStream
has no catch, so the mid-stream raise propagates before the assistant
persist is reached, and the partial full_text is not persisted. -/
theorem claim_C1_counterexample :
    assistantCount (runStream "m" [] "t1" "hello" envMidError).1 = 0
    ∧ (runStream "m" [] "t1" "hello" envMidError).2
        = Except.error "boom" := by
  constructor <;> rfl

/-- Claim C1 amended.  When the LM stream raises mid-way (a tool threw or
the LM errored after yielding some deltas), runStream ends with that error
— the endpoint adapter surfaces it as a distinguished error event — and NO
assistant message is persisted: the thread gains no assistant row, so the
partial accumulated full_text is discarded rather than persisted. -/
theorem claim_C1 (modelName : String) (s : List Message)
    (tid umsg : String) (env : RunEnv) (deltas : List String) (err : String)
    (hlm : env.lm = LMOutcome.midStreamError deltas err) :
    (runStream modelName s tid umsg env).2 = Except.error err
    ∧ assistantCount (runStream modelName s tid umsg env).1
        = assistantCount s := by
  obtain ⟨t, ht, -, -, ha⟩ := runStream_appends modelName s tid umsg env
  constructor
  · simp [runStream, hlm]
  · rw [ht, assistantCount_append, ha deltas err hlm, Nat.add_zero]

theorem claim_C1_witness :
    (runStream "m" [] "t1" "hello" envMidError).2 = Except.error "boom"
    ∧ assistantCount (runStream "m" [] "t1" "hello" envMidError).1
        = assistantCount [] :=
  claim_C1 "m" [] "t1" "hello" envMidError ["Hel"] "boom" rfl

end Vigil.Agent

namespace Vigil.Sched

/-- Claim C4.  SchedulerService.tick never propagates an exception to its
caller: for every combination of dependency outcomes — storage failures,
agent run failures, skill failures (notification delivery failures never
reject at all) — the tick either completes with the actions it performed,
or the internal error is the one it logged before ending normally.  The
result type has no propagation alternative, mirroring the outer try/catch
that encloses the entire tick body, so a tick error never crashes the
process and the next tick runs normally. -/
theorem claim_C4 (deps : TickDeps) :
    (∃ acts, tick deps = TickResult.done acts
      ∧ tickBody deps = Except.ok acts)
    ∨ (∃ e, tick deps = TickResult.loggedError e
      ∧ tickBody deps = Except.error e) := by
  cases h : tickBody deps with
  | ok acts => exact Or.inl ⟨acts, by simp [tick, h], rfl⟩
  | error e => exact Or.inr ⟨e, by simp [tick, h], rfl⟩

theorem tick_storage_down :
    tick depsStorageDown = TickResult.loggedError "connection refused" := rfl

end Vigil.Sched

namespace Vigil.Departure

/-- Claim C8.  In a departure-check iteration with the arrival still ahead
and leave_by (arrival minus duration_in_traffic when present, else nominal
duration) at most now plus the lead, the skill sends exactly one
notification, titled Time to leave, and finishes with success and
disableJob set; and for any such successful disableJob skill result, the
scheduler's dispatch disables the job, completes the run with no thread,
and updates last_run_at. -/
theorem claim_C8 (cfg : Config) (now arrivalMs : Int) (r : DirectionsResult)
    (fmt : Int → String) (deps : Sched.TickDeps) (run : Sched.ClaimedRun)
    (job : Sched.Job) (sname : String)
    (hnotpast : now < arrivalMs)
    (hleave : arrivalMs
        - ((r.durationInTraffic.getD r.duration : Nat) : Int) * 1000
        ≤ now + (cfg.leadMinutes : Int) * 60000)
    (hsn : job.skill_name = some sname) (hne : sname.isEmpty = false) :
    iteration cfg now arrivalMs (DirectionsOutcome.ok r) fmt
      = IterOutcome.finished
          { success := true,
            message := "Notification sent — leave by " ++ fmt (arrivalMs
              - ((r.durationInTraffic.getD r.duration : Nat) : Int) * 1000),
            disableJob := true }
          [{ title := "Time to leave",
             body := "Leave for daycare — ~"
               ++ toString ((r.durationInTraffic.getD r.duration + 30) / 60)
               ++ " min drive via " ++ r.routeSummary,
             tag := "car" }]
    ∧ (∀ result : Sched.SkillResult, result.success = true →
        result.disableJob = true →
        deps.skillExecute sname = some (Except.ok result) →
        deps.updateJob job.id = Except.ok () →
        deps.completeRun run.id = Except.ok () →
        Sched.executeWithCatch deps run job
          = Except.ok [Sched.Action.disableJob job.id,
              Sched.Action.completeRun run.id none,
              Sched.Action.setLastRun job.id]) := by
  constructor
  · have h1 : ¬ (arrivalMs ≤ now) := not_le.mpr hnotpast
    simp only [iteration, if_neg h1, if_pos hleave]
  · intro result hs hd hreg hupd hcomp
    have htr : jsTruthy job.skill_name = true := by
      rw [hsn]
      simp [jsTruthy, hne]
    unfold Sched.executeWithCatch Sched.runPayload
    rw [if_pos htr, hsn]
    simp only [Option.getD_some, hreg]
    simp [hs, hd, hupd, hcomp, Bind.bind, Except.bind, pure, Except.pure]

theorem claim_C8_witness :
    iteration cfgDemo nowDemo arrivalDemo (DirectionsOutcome.ok dirDemo)
        fmtDemo
      = IterOutcome.finished
          { success := true,
            message := "Notification sent — leave by " ++ fmtDemo (arrivalDemo
              - ((dirDemo.durationInTraffic.getD dirDemo.duration
                : Nat) : Int) * 1000),
            disableJob := true }
          [{ title := "Time to leave",
             body := "Leave for daycare — ~"
               ++ toString ((dirDemo.durationInTraffic.getD dirDemo.duration
                 + 30) / 60)
               ++ " min drive via " ++ dirDemo.routeSummary,
             tag := "car" }]
    ∧ Sched.executeWithCatch (depsSkillDemo resultDemo) runDemo jobDemo
        = Except.ok [Sched.Action.disableJob "3",
            Sched.Action.completeRun 9 none,
            Sched.Action.setLastRun "3"] :=
  have h := claim_C8 cfgDemo nowDemo arrivalDemo dirDemo fmtDemo
    (depsSkillDemo resultDemo) runDemo jobDemo "departure-check"
    (by decide) (by decide) rfl rfl
  ⟨h.1, h.2 resultDemo rfl rfl (by rfl) rfl rfl⟩

end Vigil.Departure

namespace Vigil.JobSvc

/-- Counterexample to claim C7 as stated: JobService.create accepts and
stores a job carrying both a prompt and a full skill payload, and also a
job carrying neither — no layer (service, repository, or schema after the
skill-columns migration) enforces the exactly-one-payload invariant. -/
theorem claim_C7_counterexample :
    create ["departure-check"] cnrDemo inputBoth
      = Except.ok
          { name := "Hybrid", schedule := some "0 8 * * *",
            prompt := some "status", enabled := true, max_retries := 3,
            skill_name := some "departure-check",
            skill_config := some "cfg",
            next_run_at := "2026-03-02T08:00:00Z" }
    ∧ create ["departure-check"] cnrDemo inputNeither
      = Except.ok
          { name := "Empty", schedule := some "0 8 * * *",
            prompt := none, enabled := true, max_retries := 3,
            skill_name := none, skill_config := none,
            next_run_at := "2026-03-02T08:00:00Z" } := by
  constructor <;> rfl

/-- Claim C7 amended.  JobService.create validates only the schedule (a
truthy cron must parse, else run_at must be present) and, for a truthy
skill_name, its registration; the prompt and skill payload fields are then
stored exactly as given, so a job may hold a prompt, a skill payload,
both, or neither. -/
theorem claim_C7 (valid : List String) (cnr : String → Option String)
    (input : CreateJobInput) (t : String)
    (hsched : jsTruthy input.schedule = true)
    (hc : cnr (input.schedule.getD "") = some t)
    (hskill : jsTruthy input.skill_name = true →
      (input.skill_name.getD "") ∈ valid) :
    create valid cnr input
      = Except.ok
          { name := input.name, schedule := input.schedule,
            prompt := input.prompt, enabled := input.enabled.getD true,
            max_retries := input.max_retries.getD 3,
            skill_name := input.skill_name,
            skill_config := input.skill_config, next_run_at := t } := by
  unfold create
  by_cases hsk : jsTruthy input.skill_name = true
  · simp [hsched, hc, hsk, hskill hsk, Bind.bind, Except.bind]
  · simp [hsched, hc, hsk, Bind.bind, Except.bind]

theorem claim_C7_witness :
    create ["departure-check"] cnrDemo inputBoth
      = Except.ok
          { name := inputBoth.name, schedule := inputBoth.schedule,
            prompt := inputBoth.prompt,
            enabled := inputBoth.enabled.getD true,
            max_retries := inputBoth.max_retries.getD 3,
            skill_name := inputBoth.skill_name,
            skill_config := inputBoth.skill_config,
            next_run_at := "2026-03-02T08:00:00Z" } :=
  claim_C7 ["departure-check"] cnrDemo inputBoth "2026-03-02T08:00:00Z"
    rfl rfl (fun _ => by decide)

end Vigil.JobSvc

namespace Vigil.Memory

/-- Counterexample to claim C6 as stated: with replace_id naming an entry
that is already soft-deleted, MemoryService.remember does not fail — its
promise resolves with the repository's empty result (Except.ok none) and
the store is unchanged.  No NotFound error is raised on this path; the
HTTP layer is what maps such absent results to 404 responses, and the
remember tool even reports the update as done. -/
theorem claim_C6_counterexample :
    remember storeDeleted (Except.ok [2]) "New fact" MemSource.agent none
        (some 1)
      = (Except.ok none, storeDeleted) := by
  rfl

theorem mapOnLive_not_found (l : List MemoryEntry) (rid : Nat)
    (content : String) (embedding : List Int)
    (h : ∀ e ∈ l, ¬ (e.id = rid ∧ e.deleted = false)) :
    l.map (fun e =>
      if e.id = rid ∧ e.deleted = false then
        { e with content := content, embedding := embedding }
      else e) = l := by
  induction l with
  | nil => rfl
  | cons a t ih =>
      have ha := h a (by simp)
      have ht : ∀ e ∈ t, ¬ (e.id = rid ∧ e.deleted = false) :=
        fun e he => h e (by simp [he])
      simp [if_neg ha, ih ht]

/-- Claim C6 amended.  MemoryService.remember with a replace_id updates
that entry's content and embedding in the same repository operation and
returns the updated entry; when the entry is soft-deleted (or missing),
the update matches no row: remember resolves with no entry and the store
is untouched — the NotFound condition is this absent result (mapped to 404
by the HTTP layer), not a raised error.  With replace_id absent, a new
entry is created and returned. -/
theorem claim_C6 (st : MemStore) (embedding : List Int) (content : String)
    (src : MemSource) (tid : Option String) (rid : Nat) :
    (∀ e0, st.entries.find?
        (fun e => decide (e.id = rid ∧ e.deleted = false)) = some e0 →
      (remember st (Except.ok embedding) content src tid (some rid)).1
        = Except.ok
            (some { e0 with content := content, embedding := embedding }))
    ∧ (st.entries.find?
        (fun e => decide (e.id = rid ∧ e.deleted = false)) = none →
      remember st (Except.ok embedding) content src tid (some rid)
        = (Except.ok none, st))
    ∧ remember st (Except.ok embedding) content src tid none
        = (Except.ok (some (freshMemory st content embedding src tid)),
           { entries := st.entries
               ++ [freshMemory st content embedding src tid],
             nextId := st.nextId + 1 }) := by
  refine ⟨fun e0 h0 => ?_, fun hnone => ?_, rfl⟩
  · simp only [remember, repoUpdate]
    rw [h0]
    rfl
  · have hall : ∀ e ∈ st.entries, ¬ (e.id = rid ∧ e.deleted = false) := by
      intro e he hp
      have := List.find?_eq_none.mp hnone e he
      simp [hp] at this
    simp only [remember, repoUpdate, hnone, Option.map_none']
    rw [mapOnLive_not_found st.entries rid content embedding hall]

theorem claim_C6_witness :
    (remember storeLive (Except.ok [2]) "New fact" MemSource.agent none
        (some 1)).1
      = Except.ok (some { id := 1, content := "New fact", embedding := [2],
                          source := MemSource.agent, thread_id := none,
                          deleted := false })
    ∧ remember storeDeleted (Except.ok [2]) "New fact" MemSource.agent none
        (some 1) = (Except.ok none, storeDeleted)
    ∧ remember storeLive (Except.ok [2]) "Another" MemSource.user (some "9")
        none
      = (Except.ok (some (freshMemory storeLive "Another" [2]
            MemSource.user (some "9"))),
         { entries := storeLive.entries
             ++ [freshMemory storeLive "Another" [2] MemSource.user
               (some "9")],
           nextId := storeLive.nextId + 1 }) :=
  ⟨(claim_C6 storeLive [2] "New fact" MemSource.agent none 1).1
      { id := 1, content := "Old fact", embedding := [1],
                 source := MemSource.agent, thread_id := none,
                 deleted := false }
      (by rfl),
   (claim_C6 storeDeleted [2] "New fact" MemSource.agent none 1).2.1
      (by rfl),
   (claim_C6 storeLive [2] "Another" MemSource.user (some "9") 0).2.2⟩

end Vigil.Memory

namespace Vigil.FetchUrl

theorem append_marker_not_empty (l : List Char) :
    (l ++ TRUNCATION_MARKER).isEmpty = false := by
  cases l with
  | nil => decide
  | cons a t => rfl

theorem fetchUrl_ok_long (r : HttpResponse) (extracted : List Char)
    (hok : r.ok = true)
    (hct : (!strContains (r.contentType.getD "") "text/"
        && !strContains (r.contentType.getD "") "application/json")
        = false)
    (hlong : MAX_CONTENT_LENGTH < extracted.length) :
    fetchUrl (FetchOutcome.response r extracted)
      = extracted.take MAX_CONTENT_LENGTH ++ TRUNCATION_MARKER := by
  unfold fetchUrl
  simp only [hok, Bool.not_true, Bool.false_eq_true, if_false, hct,
    if_pos hlong, append_marker_not_empty]

theorem take_marker_length (extracted : List Char)
    (hlong : MAX_CONTENT_LENGTH < extracted.length) :
    (extracted.take MAX_CONTENT_LENGTH ++ TRUNCATION_MARKER).length
      = MAX_CONTENT_LENGTH + 21 := by
  have hm : TRUNCATION_MARKER.length = 21 := by decide
  rw [List.length_append, List.length_take, hm]
  omega

/-- Counterexample to claim C9 as stated: a page whose extracted article is
20001 characters yields a return value of 20021 characters — the source
slices the content to 20000 characters and then appends the 21-character
truncation marker, so the full returned string exceeds the claimed 20000
bound. -/
theorem claim_C9_counterexample :
    fetchUrl longPage
      = (List.replicate 20001 'a').take MAX_CONTENT_LENGTH
        ++ TRUNCATION_MARKER
    ∧ (fetchUrl longPage).length = 20021
    ∧ 20000 < (fetchUrl longPage).length := by
  have hlen : MAX_CONTENT_LENGTH < (List.replicate 20001 'a').length := by
    rw [List.length_replicate]
    decide
  have h : fetchUrl longPage
      = (List.replicate 20001 'a').take MAX_CONTENT_LENGTH
        ++ TRUNCATION_MARKER :=
    fetchUrl_ok_long respDemo (List.replicate 20001 'a') rfl (by decide) hlen
  have hl := take_marker_length (List.replicate 20001 'a') hlen
  exact ⟨h, by rw [h, hl]; decide, by rw [h, hl]; decide⟩

/-- Claim C9 amended.  For a successful response with an acceptable
content type, fetchUrl returns the extracted markdown when it fits within
MAX_CONTENT_LENGTH (20000) characters; longer content is sliced to 20000
characters and the visible marker [Content truncated] is appended, so the
returned string then totals 20021 characters (not at most 20000 as the
claim stated); and the tool never raises — HTTP failures, rejected content
types and any thrown exception are returned as human-readable strings,
such as the thrown branch shown here. -/
theorem claim_C9 (r : HttpResponse) (extracted : List Char) (m : String)
    (hok : r.ok = true)
    (hct : (!strContains (r.contentType.getD "") "text/"
        && !strContains (r.contentType.getD "") "application/json")
        = false) :
    (MAX_CONTENT_LENGTH < extracted.length →
      fetchUrl (FetchOutcome.response r extracted)
        = extracted.take MAX_CONTENT_LENGTH ++ TRUNCATION_MARKER
      ∧ (fetchUrl (FetchOutcome.response r extracted)).length
          = MAX_CONTENT_LENGTH + 21)
    ∧ (extracted.length ≤ MAX_CONTENT_LENGTH →
      (fetchUrl (FetchOutcome.response r extracted)).length
        ≤ MAX_CONTENT_LENGTH)
    ∧ fetchUrl (FetchOutcome.thrown m)
        = ("Failed to fetch URL: " ++ m).data := by
  refine ⟨fun hlong => ?_, fun hshort => ?_, rfl⟩
  · have h := fetchUrl_ok_long r extracted hok hct hlong
    exact ⟨h, by rw [h]; exact take_marker_length extracted hlong⟩
  · have hnot : ¬ MAX_CONTENT_LENGTH < extracted.length := by omega
    unfold fetchUrl
    simp only [hok, Bool.not_true, Bool.false_eq_true, if_false, hct,
      if_neg hnot]
    split
    · decide
    · exact hshort

theorem claim_C9_witness :
    (fetchUrl (FetchOutcome.response respDemo (List.replicate 20001 'a'))
        = (List.replicate 20001 'a').take MAX_CONTENT_LENGTH
          ++ TRUNCATION_MARKER
      ∧ (fetchUrl (FetchOutcome.response respDemo
          (List.replicate 20001 'a'))).length = MAX_CONTENT_LENGTH + 21)
    ∧ (fetchUrl (FetchOutcome.response respDemo ['h', 'i'])).length
        ≤ MAX_CONTENT_LENGTH :=
  ⟨(claim_C9 respDemo (List.replicate 20001 'a') "x" rfl (by decide)).1
      (by rw [List.length_replicate]; decide),
   (claim_C9 respDemo ['h', 'i'] "x" rfl (by decide)).2.1
      (by decide)⟩

end Vigil.FetchUrl

namespace Vigil.Directions

/-- Claim C10.  fetchDirections never rejects a call for supplying both
departure_time and arrival_time: a truthy arrival_time takes precedence
and departure_time is silently ignored (the built query holds an
arrival_time parameter and no departure_time parameter); and when both are
absent, departure_time is set to now.  The directions tool passes both
optional zod parameters straight through, so the same holds for it. -/
theorem claim_C10 (input : DirectionsInput) (parse : String → Option Int)
    (apiKey : String) :
    (∀ e : Int, jsTruthy input.arrival_time = true →
      toEpochSeconds parse (input.arrival_time.getD "") = some e →
      ¬ e = 0 →
      buildParams input parse apiKey
        = Except.ok ([("origin", input.origin),
            ("destination", input.destination), ("key", apiKey)]
            ++ [("arrival_time", toString e)]))
    ∧ (jsTruthy input.arrival_time = false →
      jsTruthy input.departure_time = false →
      buildParams input parse apiKey
        = Except.ok ([("origin", input.origin),
            ("destination", input.destination), ("key", apiKey)]
            ++ [("departure_time", "now")])) := by
  constructor
  · intro e harr hparse hz
    unfold buildParams
    rw [if_pos harr, hparse]
    simp [hz]
  · intro harr hdep
    unfold buildParams
    rw [if_neg (by simp [harr]), if_neg (by simp [hdep])]

theorem claim_C10_witness :
    buildParams inputBothTimes parseDemo "KEY"
      = Except.ok ([("origin", inputBothTimes.origin),
          ("destination", inputBothTimes.destination), ("key", "KEY")]
          ++ [("arrival_time", toString (1774622700 : Int))])
    ∧ buildParams inputNoTimes parseDemo "KEY"
      = Except.ok ([("origin", inputNoTimes.origin),
          ("destination", inputNoTimes.destination), ("key", "KEY")]
          ++ [("departure_time", "now")]) :=
  ⟨(claim_C10 inputBothTimes parseDemo "KEY").1 1774622700 rfl
      (by decide) (by decide),
   (claim_C10 inputNoTimes parseDemo "KEY").2 rfl rfl⟩

end Vigil.Directions
